import Mathlib

/-!
# diffdrive_ddsm115: the hardware adapter `DiffDriveDDSM115Hardware`

A shallow embedding of `src/hardware/diffbot_system.cpp`.

* C++ `double` values are idealised as elements of a field `K` (exact
  arithmetic, no rounding); concrete evaluations take `K = ℚ`, where the
  C constant `M_PI` is the rational number `884279719003555 / 2 ^ 48`.
* `int` values are `Int`.
* The serial transport `commsDDSM_` is a state record together with the
  list of calls made on it so far; what the outside world answers (does a
  port open, what telemetry comes back) is an explicit environment `Env`.
* A C++ exception leaving a function is the `Except.error` result.
-/

namespace diffdrive_ddsm115

/-! ## Framework types -/

/-- Lifecycle status `hardware_interface::CallbackReturn`. -/
inductive CallbackReturn where
  | SUCCESS
  | FAILURE
  | ERROR
  deriving DecidableEq, Repr

/-- Tick status `hardware_interface::return_type`. -/
inductive return_type where
  | OK
  | ERROR
  deriving DecidableEq, Repr

/-- The constant `hardware_interface::HW_IF_POSITION`. -/
def HW_IF_POSITION : String := "position"

/-- The constant `hardware_interface::HW_IF_VELOCITY`. -/
def HW_IF_VELOCITY : String := "velocity"

/-- One entry of `ComponentInfo::command_interfaces` or `state_interfaces`;
only the name is inspected by the adapter. -/
structure InterfaceInfo where
  name : String
  deriving DecidableEq, Repr

/-- The joint description `hardware_interface::ComponentInfo`. -/
structure ComponentInfo where
  name : String
  command_interfaces : List InterfaceInfo
  state_interfaces : List InterfaceInfo
  deriving DecidableEq, Repr

/-- The part of `hardware_interface::HardwareInfo` that `on_init` reads: the
string parameters (a key/value map) and the declared joints. -/
structure HardwareInfo where
  hardware_parameters : List (String × String)
  joints : List ComponentInfo
  deriving DecidableEq, Repr

/-- Lookup `info_.hardware_parameters[key]`: `operator[]` of the map yields
the stored string, or the empty string when the key is absent. -/
def HardwareInfo.param (info : HardwareInfo) (key : String) : String :=
  match info.hardware_parameters.find? (fun kv => kv.1 == key) with
  | some kv => kv.2
  | none => ""

/-! ## `std::stoi` -/

/-- The two exceptions `std::stoi` can raise. -/
inductive StoiException where
  | invalid_argument
  | out_of_range
  deriving DecidableEq, Repr

/-- The C locale `isspace`: space, and the control characters 9 to 13. -/
def isspace (c : Char) : Bool :=
  c.toNat == 32 || (9 ≤ c.toNat && c.toNat ≤ 13)

/-- The C locale `isdigit`. -/
def isdigit (c : Char) : Bool :=
  48 ≤ c.toNat && c.toNat ≤ 57

/-- Value of the longest run of decimal digits at the front of `cs`,
continuing from the accumulator `acc`. -/
def digitsValue (acc : Nat) : List Char → Nat
  | [] => acc
  | c :: cs => if isdigit c then digitsValue (acc * 10 + (c.toNat - 48)) cs else acc

/-- Sign and magnitude part of `std::stoi`, after leading white space. -/
def stoiSigned (cs : List Char) : Except StoiException Int :=
  let neg : Bool := cs.head? == some (Char.ofNat 45)
  let signed : Bool := neg || cs.head? == some (Char.ofNat 43)
  let body : List Char := if signed then cs.tail else cs
  match body with
  | [] => Except.error StoiException.invalid_argument
  | c :: _ =>
    if isdigit c then
      let v : Int := if neg then -(digitsValue 0 body : Int) else (digitsValue 0 body : Int)
      if v < -2147483648 ∨ 2147483647 < v then Except.error StoiException.out_of_range
      else Except.ok v
    else Except.error StoiException.invalid_argument

/-- The call `std::stoi(s)` (base 10): skip white space, read an optional sign
and the longest run of digits; no digit raises `invalid_argument`, a value
outside the range of `int` raises `out_of_range`; trailing text is ignored. -/
def stoi (s : String) : Except StoiException Int :=
  stoiSigned (s.toList.dropWhile isspace)

/-! ## The serial transport `commsDDSM_` -/

/-- Modelled from the spec: the device operating modes of the transport
header (not among the sources); `VELOCITY_LOOP` is the "velocity control
loop" mode that `on_activate` selects. -/
inductive DDSM115Mode where
  | CURRENT_LOOP
  | VELOCITY_LOOP
  | POSITION_LOOP
  deriving DecidableEq, Repr

/-- Modelled from the spec: the last-received telemetry snapshot
`commsDDSM_.responseData` (angle in degrees, velocity in RPM). -/
structure Response (K : Type) where
  angle : K
  velocity : K
  deriving DecidableEq, Repr

/-- One call made on the transport, with its arguments. -/
inductive Call (K : Type) where
  | connect (device : String) (timeout_ms : Int)
  | disconnect
  | set_ddsm115_mode (id : Int) (mode : DDSM115Mode)
  | get_ddsm115_mode (id : Int)
  | set_ddsm115_velocity (id : Int) (value : K) (ramp : Int)
  deriving DecidableEq, Repr

/-- What the outside world answers: whether opening a device path with a
timeout succeeds, and which telemetry the device returns to a request for a
wheel id, given the calls made before it. -/
structure Env (K : Type) where
  connectOk : String → Int → Bool
  telemetry : List (Call K) → Int → Response K

/-- Modelled from the spec: the transport object (its class is not among the
sources): the `connected()` flag, the last-response snapshot, and the calls
made so far, oldest first. -/
structure Comms (K : Type) where
  connected : Bool
  responseData : Response K
  log : List (Call K)
  deriving DecidableEq, Repr

namespace Comms

variable {K : Type}

/-- Modelled from the spec: `connect(device, timeout)` opens the transport;
afterwards it is connected exactly when the open succeeded. -/
def connect (env : Env K) (c : Comms K) (device : String) (timeout_ms : Int) : Comms K :=
  { c with connected := env.connectOk device timeout_ms,
           log := c.log ++ [Call.connect device timeout_ms] }

/-- Modelled from the spec: `disconnect()` closes the transport. -/
def disconnect (c : Comms K) : Comms K :=
  { c with connected := false, log := c.log ++ [Call.disconnect] }

/-- Modelled from the spec: `set_mode(id, mode)` sends a mode-set frame. -/
def set_ddsm115_mode (c : Comms K) (id : Int) (mode : DDSM115Mode) : Comms K :=
  { c with log := c.log ++ [Call.set_ddsm115_mode id mode] }

/-- Modelled from the spec: `get_telemetry(id)` requests telemetry from the
device with that id and populates the last-response snapshot. -/
def get_ddsm115_mode (env : Env K) (c : Comms K) (id : Int) : Comms K :=
  { c with responseData := env.telemetry c.log id,
           log := c.log ++ [Call.get_ddsm115_mode id] }

/-- Modelled from the spec: `set_velocity(id, value, ramp)` sends a velocity
command. -/
def set_ddsm115_velocity (c : Comms K) (id : Int) (value : K) (ramp : Int) : Comms K :=
  { c with log := c.log ++ [Call.set_ddsm115_velocity id value ramp] }

end Comms

/-! ## Wheel state -/

/-- Modelled from the spec: the per-wheel state holder (its header is not
among the sources): identity, pending command, accumulated position and
current velocity. -/
structure Wheel (K : Type) where
  name : String
  id : Int
  cmd : K
  pos : K
  vel : K
  deriving DecidableEq, Repr

/-- What the missing wheel header fixes and the spec leaves open: the value
it uses for pi and its `check_sign` function. -/
structure WheelMath (K : Type) where
  pi : K
  check_sign : K → K

namespace Wheel

variable {K : Type}

/-- Modelled from the spec: `setup(name, id)` records the wheel's identity. -/
def setup (w : Wheel K) (name : String) (id : Int) : Wheel K :=
  { w with name := name, id := id }

/-- Modelled from the spec: `degrees_to_radians(x)` is `x * pi/180`. -/
def degrees_to_radians [Field K] (m : WheelMath K) (x : K) : K :=
  x * m.pi / 180

/-- Modelled from the spec: `rpm_to_rad_per_sec(x)` is `x * 2*pi/60`. -/
def rpm_to_rad_per_sec [Field K] (m : WheelMath K) (x : K) : K :=
  x * 2 * m.pi / 60

end Wheel

/-! ## The adapter -/

/-- The connection parameters `cfg_`. -/
structure Config where
  left_wheel_name : String
  right_wheel_name : String
  device : String
  baud_rate : Int
  timeout_ms : Int
  left_wheel_id : Int
  right_wheel_id : Int
  deriving DecidableEq, Repr

/-- The members of `DiffDriveDDSM115Hardware`. -/
structure DiffDriveDDSM115Hardware (K : Type) where
  cfg_ : Config
  wheel_l_ : Wheel K
  wheel_r_ : Wheel K
  commsDDSM_ : Comms K
  deriving DecidableEq, Repr

/-- The interface-shape checks `on_init` makes on one joint, in source order;
`true` when none of the five `return ERROR` branches is taken. -/
def jointOk (joint : ComponentInfo) : Bool :=
  if joint.command_interfaces.length != 1 then false
  else if (joint.command_interfaces.map InterfaceInfo.name).head? != some HW_IF_VELOCITY then false
  else if joint.state_interfaces.length != 2 then false
  else if (joint.state_interfaces.map InterfaceInfo.name).head? != some HW_IF_POSITION then false
  else if (joint.state_interfaces.map InterfaceInfo.name).tail.head? != some HW_IF_VELOCITY then false
  else true

/-- The `for` loop of `on_init` over `info_.joints`: the first joint failing a
check returns `ERROR`; the end of the loop returns `SUCCESS`. -/
def checkJoints : List ComponentInfo → CallbackReturn
  | [] => CallbackReturn.SUCCESS
  | joint :: rest => if jointOk joint then checkJoints rest else CallbackReturn.ERROR

namespace DiffDriveDDSM115Hardware

variable {K : Type}

/-- The callback `on_init(info)`. `base_on_init` is the result of the base
class `SystemInterface::on_init(info)`. The four `std::stoi` calls are not
guarded: an exception raised by one of them leaves `on_init`. -/
def on_init (base_on_init : CallbackReturn) (info : HardwareInfo)
    (hw : DiffDriveDDSM115Hardware K) :
    Except StoiException (CallbackReturn × DiffDriveDDSM115Hardware K) :=
  if base_on_init != CallbackReturn.SUCCESS then
    Except.ok (CallbackReturn.ERROR, hw)
  else do
    let baud_rate ← stoi (info.param "baud_rate")
    let timeout_ms ← stoi (info.param "timeout_ms")
    let left_wheel_id ← stoi (info.param "left_wheel_id")
    let right_wheel_id ← stoi (info.param "right_wheel_id")
    let cfg : Config :=
      { left_wheel_name := info.param "left_wheel_name",
        right_wheel_name := info.param "right_wheel_name",
        device := info.param "device",
        baud_rate := baud_rate,
        timeout_ms := timeout_ms,
        left_wheel_id := left_wheel_id,
        right_wheel_id := right_wheel_id }
    let hw1 : DiffDriveDDSM115Hardware K :=
      { hw with cfg_ := cfg,
                wheel_l_ := hw.wheel_l_.setup cfg.left_wheel_name cfg.left_wheel_id,
                wheel_r_ := hw.wheel_r_.setup cfg.right_wheel_name cfg.right_wheel_id }
    Except.ok (checkJoints info.joints, hw1)

/-- The callback `on_configure`: disconnect when connected, connect, and
return `SUCCESS`. -/
def on_configure (env : Env K) (hw : DiffDriveDDSM115Hardware K) :
    CallbackReturn × DiffDriveDDSM115Hardware K :=
  let c1 : Comms K := if hw.commsDDSM_.connected then hw.commsDDSM_.disconnect else hw.commsDDSM_
  let c2 : Comms K := c1.connect env hw.cfg_.device hw.cfg_.timeout_ms
  (CallbackReturn.SUCCESS, { hw with commsDDSM_ := c2 })

/-- The callback `on_cleanup`: disconnect when connected. -/
def on_cleanup (hw : DiffDriveDDSM115Hardware K) :
    CallbackReturn × DiffDriveDDSM115Hardware K :=
  let c1 : Comms K := if hw.commsDDSM_.connected then hw.commsDDSM_.disconnect else hw.commsDDSM_
  (CallbackReturn.SUCCESS, { hw with commsDDSM_ := c1 })

/-- The callback `on_activate`. -/
def on_activate (hw : DiffDriveDDSM115Hardware K) :
    CallbackReturn × DiffDriveDDSM115Hardware K :=
  if !hw.commsDDSM_.connected then
    (CallbackReturn.ERROR, hw)
  else
    let c1 : Comms K := hw.commsDDSM_.set_ddsm115_mode hw.wheel_l_.id DDSM115Mode.VELOCITY_LOOP
    let c2 : Comms K := c1.set_ddsm115_mode hw.wheel_r_.id DDSM115Mode.VELOCITY_LOOP
    (CallbackReturn.SUCCESS, { hw with commsDDSM_ := c2 })

/-- The callback `on_deactivate`: logs only. -/
def on_deactivate (hw : DiffDriveDDSM115Hardware K) :
    CallbackReturn × DiffDriveDDSM115Hardware K :=
  (CallbackReturn.SUCCESS, hw)

/-- The tick function `read`. The local `wheel_dir` is read before it is
assigned (`double wheel_dir = wheel_l_.check_sign(wheel_dir);`); `dir0` is
the indeterminate value it holds at that point. -/
def read [Field K] (m : WheelMath K) (env : Env K) (dir0 : K)
    (hw : DiffDriveDDSM115Hardware K) : return_type × DiffDriveDDSM115Hardware K :=
  if !hw.commsDDSM_.connected then
    (return_type.ERROR, hw)
  else
    let c1 : Comms K := hw.commsDDSM_.get_ddsm115_mode env hw.wheel_l_.id
    let wheel_pos : K := Wheel.degrees_to_radians m c1.responseData.angle
    let wheel_vel : K := c1.responseData.velocity
    let wheel_dir : K := m.check_sign dir0
    let wl : Wheel K :=
      { hw.wheel_l_ with
          pos := Wheel.degrees_to_radians m (hw.wheel_l_.pos + wheel_pos * wheel_dir),
          vel := Wheel.rpm_to_rad_per_sec m wheel_vel }
    let c2 : Comms K := c1.get_ddsm115_mode env hw.wheel_r_.id
    let wheel_pos2 : K := Wheel.degrees_to_radians m c2.responseData.angle
    let wheel_vel2 : K := c2.responseData.velocity
    let wheel_dir2 : K := m.check_sign wheel_dir
    let wr : Wheel K :=
      { hw.wheel_r_ with
          pos := Wheel.degrees_to_radians m (hw.wheel_r_.pos + wheel_pos2 * wheel_dir2),
          vel := Wheel.rpm_to_rad_per_sec m wheel_vel2 }
    (return_type.OK, { hw with wheel_l_ := wl, wheel_r_ := wr, commsDDSM_ := c2 })

/-- The tick function `write`. -/
def write [Field K] (hw : DiffDriveDDSM115Hardware K) :
    return_type × DiffDriveDDSM115Hardware K :=
  if !hw.commsDDSM_.connected then
    (return_type.ERROR, hw)
  else
    let c1 : Comms K := hw.commsDDSM_.set_ddsm115_velocity hw.wheel_l_.id (hw.wheel_l_.cmd * 10) 3
    let c2 : Comms K := c1.set_ddsm115_velocity hw.wheel_r_.id (-hw.wheel_r_.cmd * 10) 3
    (return_type.OK, { hw with commsDDSM_ := c2 })

end DiffDriveDDSM115Hardware

/-! ## Observations on results and traces -/

/-- The numeric parameters of `on_init`, in the order they are parsed. -/
def numericParams : List String :=
  ["baud_rate", "timeout_ms", "left_wheel_id", "right_wheel_id"]

/-- Status returned by a callback that may also leave by an exception
(`none`: no status, an exception left the callback). -/
def statusOf {ε σ : Type} (r : Except ε (CallbackReturn × σ)) : Option CallbackReturn :=
  match r with
  | Except.ok p => some p.1
  | Except.error _ => none

/-- Replays a trace of transport calls from the connected flag `c` and checks
that every `connect` in it is made while the transport is not connected. -/
def connectsWhenClosed {K : Type} (env : Env K) : Bool → List (Call K) → Bool
  | _, [] => true
  | c, Call.connect device timeout_ms :: rest =>
      !c && connectsWhenClosed env (env.connectOk device timeout_ms) rest
  | _, Call.disconnect :: rest => connectsWhenClosed env false rest
  | c, _ :: rest => connectsWhenClosed env c rest

/-! ## Concrete inputs -/

/-- Wheel arithmetic over `ℚ`: pi is the exact value of the `double` constant
`M_PI`, and `check_sign` gives `-1` below zero and `1` otherwise. -/
def sampleMath : WheelMath ℚ :=
  { pi := 884279719003555 / 281474976710656,
    check_sign := fun x => if x < 0 then -1 else 1 }

/-- A world where only `/dev/ttyUSB0` opens; wheel 1 reports 180 degrees at
60 RPM, every other wheel 90 degrees at -30 RPM. -/
def sampleEnv : Env ℚ :=
  { connectOk := fun device _ => device == "/dev/ttyUSB0",
    telemetry := fun _ id => if id = 1 then { angle := 180, velocity := 60 }
                             else { angle := 90, velocity := -30 } }

/-- A world where no device path opens. -/
def failEnv : Env ℚ :=
  { connectOk := fun _ _ => false,
    telemetry := fun _ _ => { angle := 0, velocity := 0 } }

/-- An adapter with left wheel id 1 (pending command 2) and right wheel id 2
(pending command 3), both positions 0, and the given connected flag. -/
def sampleHw (connected : Bool) : DiffDriveDDSM115Hardware ℚ :=
  { cfg_ := { left_wheel_name := "left_wheel_joint", right_wheel_name := "right_wheel_joint",
              device := "/dev/ttyUSB0", baud_rate := 115200, timeout_ms := 100,
              left_wheel_id := 1, right_wheel_id := 2 },
    wheel_l_ := { name := "left_wheel_joint", id := 1, cmd := 2, pos := 0, vel := 0 },
    wheel_r_ := { name := "right_wheel_joint", id := 2, cmd := 3, pos := 0, vel := 0 },
    commsDDSM_ := { connected := connected, responseData := { angle := 0, velocity := 0 },
                    log := [] } }

/-- A joint with one `velocity` command interface and the state interfaces
`position`, `velocity`. -/
def velocityJoint (name : String) : ComponentInfo :=
  { name := name,
    command_interfaces := [{ name := "velocity" }],
    state_interfaces := [{ name := "position" }, { name := "velocity" }] }

/-- The same joint with its two state interfaces swapped. -/
def swappedJoint (name : String) : ComponentInfo :=
  { name := name,
    command_interfaces := [{ name := "velocity" }],
    state_interfaces := [{ name := "velocity" }, { name := "position" }] }

/-- Hardware parameters with `timeout_ms="100"` and the given `baud_rate`. -/
def sampleParams (baud_rate : String) : List (String × String) :=
  [("left_wheel_name", "left_wheel_joint"), ("right_wheel_name", "right_wheel_joint"),
   ("device", "/dev/ttyUSB0"), ("baud_rate", baud_rate), ("timeout_ms", "100"),
   ("left_wheel_id", "1"), ("right_wheel_id", "2")]

/-- Two well-shaped joints, `baud_rate="115200"`. -/
def goodInfo : HardwareInfo :=
  { hardware_parameters := sampleParams "115200",
    joints := [velocityJoint "left_wheel_joint", velocityJoint "right_wheel_joint"] }

/-- As `goodInfo`, the right joint with swapped state interfaces. -/
def swappedInfo : HardwareInfo :=
  { hardware_parameters := sampleParams "115200",
    joints := [velocityJoint "left_wheel_joint", swappedJoint "right_wheel_joint"] }

/-- As `goodInfo`, with `baud_rate="fast"`. -/
def badBaudInfo : HardwareInfo :=
  { hardware_parameters := sampleParams "fast",
    joints := [velocityJoint "left_wheel_joint", velocityJoint "right_wheel_joint"] }

/-! ## Lemmas on `on_init` -/

theorem jointOk_iff (joint : ComponentInfo) :
    jointOk joint = true ↔
      joint.command_interfaces.map InterfaceInfo.name = [HW_IF_VELOCITY] ∧
      joint.state_interfaces.map InterfaceInfo.name = [HW_IF_POSITION, HW_IF_VELOCITY] := by
  rcases joint with ⟨n, cs, ss⟩
  rcases cs with _ | ⟨c, _ | ⟨c2, cs⟩⟩ <;> rcases ss with _ | ⟨s, _ | ⟨s2, _ | ⟨s3, ss⟩⟩⟩ <;>
    simp [jointOk]

theorem checkJoints_success_iff (joints : List ComponentInfo) :
    checkJoints joints = CallbackReturn.SUCCESS ↔ ∀ joint ∈ joints, jointOk joint = true := by
  induction joints with
  | nil => simp [checkJoints]
  | cons j js ih =>
    cases hj : jointOk j <;> simp [checkJoints, hj, ih]

theorem checkJoints_cases (joints : List ComponentInfo) :
    checkJoints joints = CallbackReturn.SUCCESS ∨ checkJoints joints = CallbackReturn.ERROR := by
  induction joints with
  | nil => simp [checkJoints]
  | cons j js ih =>
    cases hj : jointOk j <;> simp [checkJoints, hj, ih]

theorem on_init_parsed {K : Type} (info : HardwareInfo) (hw : DiffDriveDDSM115Hardware K)
    (h : ∀ key ∈ numericParams, ∃ v, stoi (info.param key) = Except.ok v) :
    statusOf (DiffDriveDDSM115Hardware.on_init CallbackReturn.SUCCESS info hw) =
      some (checkJoints info.joints) := by
  obtain ⟨b, hb⟩ := h "baud_rate" (by simp [numericParams])
  obtain ⟨t, ht⟩ := h "timeout_ms" (by simp [numericParams])
  obtain ⟨l, hl⟩ := h "left_wheel_id" (by simp [numericParams])
  obtain ⟨r, hr⟩ := h "right_wheel_id" (by simp [numericParams])
  simp [DiffDriveDDSM115Hardware.on_init, hb, ht, hl, hr, statusOf, bind, Except.bind]

theorem sampleParams_parse (joints : List ComponentInfo) :
    ∀ key ∈ numericParams,
      ∃ v, stoi (HardwareInfo.param ⟨sampleParams "115200", joints⟩ key) = Except.ok v := by
  intro key hkey
  simp only [numericParams, List.mem_cons, List.mem_singleton, List.mem_nil_iff,
    or_false] at hkey
  rcases hkey with rfl | rfl | rfl | rfl
  · refine ⟨115200, ?_⟩
    rw [show HardwareInfo.param ⟨sampleParams "115200", joints⟩ "baud_rate" = "115200" from rfl]
    rfl
  · refine ⟨100, ?_⟩
    rw [show HardwareInfo.param ⟨sampleParams "115200", joints⟩ "timeout_ms" = "100" from rfl]
    rfl
  · refine ⟨1, ?_⟩
    rw [show HardwareInfo.param ⟨sampleParams "115200", joints⟩ "left_wheel_id" = "1" from rfl]
    rfl
  · refine ⟨2, ?_⟩
    rw [show HardwareInfo.param ⟨sampleParams "115200", joints⟩ "right_wheel_id" = "2" from rfl]
    rfl

/-- What `read` does to the two positions when connected: the sum of the old
position and the converted, signed angle is passed through
`degrees_to_radians` once more before it is stored. -/
theorem read_position {K : Type} [Field K] (m : WheelMath K) (env : Env K) (dir0 : K)
    (hw : DiffDriveDDSM115Hardware K) (h : hw.commsDDSM_.connected = true) :
    (DiffDriveDDSM115Hardware.read m env dir0 hw).2.wheel_l_.pos =
      Wheel.degrees_to_radians m (hw.wheel_l_.pos +
        Wheel.degrees_to_radians m (env.telemetry hw.commsDDSM_.log hw.wheel_l_.id).angle *
          m.check_sign dir0) ∧
    (DiffDriveDDSM115Hardware.read m env dir0 hw).2.wheel_r_.pos =
      Wheel.degrees_to_radians m (hw.wheel_r_.pos +
        Wheel.degrees_to_radians m
          (env.telemetry (hw.commsDDSM_.log ++ [Call.get_ddsm115_mode hw.wheel_l_.id])
            hw.wheel_r_.id).angle *
          m.check_sign (m.check_sign dir0)) := by
  simp [DiffDriveDDSM115Hardware.read, h, Comms.get_ddsm115_mode]

/-! ## Claims -/

/-- Claim C1, evaluated on the code: a connected adapter with both positions 0
reads 180 degrees for the left wheel and 90 degrees for the right wheel, with
direction sign 1. The stored positions are the increments
`degrees_to_radians d * s` converted from degrees to radians a second time,
not the increments themselves: one read does not add
`degrees_to_radians d * s` to the previous position. -/
theorem read_position_converted_twice :
    (DiffDriveDDSM115Hardware.read sampleMath sampleEnv 1 (sampleHw true)).2.wheel_l_.pos =
      Wheel.degrees_to_radians sampleMath (0 + Wheel.degrees_to_radians sampleMath 180 * 1) ∧
    (DiffDriveDDSM115Hardware.read sampleMath sampleEnv 1 (sampleHw true)).2.wheel_l_.pos ≠
      0 + Wheel.degrees_to_radians sampleMath 180 * 1 ∧
    (DiffDriveDDSM115Hardware.read sampleMath sampleEnv 1 (sampleHw true)).2.wheel_r_.pos =
      Wheel.degrees_to_radians sampleMath (0 + Wheel.degrees_to_radians sampleMath 90 * 1) ∧
    (DiffDriveDDSM115Hardware.read sampleMath sampleEnv 1 (sampleHw true)).2.wheel_r_.pos ≠
      0 + Wheel.degrees_to_radians sampleMath 90 * 1 := by
  have h := read_position sampleMath sampleEnv 1 (sampleHw true) rfl
  rw [h.1, h.2]
  norm_num [sampleMath, sampleEnv, sampleHw, Wheel.degrees_to_radians]

/-- Claim C2: a `write` on a connected transport returns `OK` and appends
exactly two calls to the transport, in this order: a velocity command to the
left wheel id with value `cmd * 10` and ramp 3, and one to the right wheel id
with value `-cmd * 10` and ramp 3; the wheels are left as they were. -/
theorem write_connected {K : Type} [Field K] (hw : DiffDriveDDSM115Hardware K)
    (h : hw.commsDDSM_.connected = true) :
    (DiffDriveDDSM115Hardware.write hw).1 = return_type.OK ∧
    (DiffDriveDDSM115Hardware.write hw).2.commsDDSM_.log = hw.commsDDSM_.log ++
      [Call.set_ddsm115_velocity hw.wheel_l_.id (hw.wheel_l_.cmd * 10) 3,
       Call.set_ddsm115_velocity hw.wheel_r_.id (-hw.wheel_r_.cmd * 10) 3] ∧
    (DiffDriveDDSM115Hardware.write hw).2.wheel_l_ = hw.wheel_l_ ∧
    (DiffDriveDDSM115Hardware.write hw).2.wheel_r_ = hw.wheel_r_ := by
  simp [DiffDriveDDSM115Hardware.write, h, Comms.set_ddsm115_velocity]

/-- Witness for C2: pending commands 2 (left, id 1) and 3 (right, id 2) are
sent as 20 and -30. -/
theorem write_connected_witness :
    (sampleHw true).commsDDSM_.connected = true ∧
    (DiffDriveDDSM115Hardware.write (sampleHw true)).1 = return_type.OK ∧
    (DiffDriveDDSM115Hardware.write (sampleHw true)).2.commsDDSM_.log =
      [Call.set_ddsm115_velocity 1 20 3, Call.set_ddsm115_velocity 2 (-30) 3] := by
  have h := write_connected (sampleHw true) rfl
  refine ⟨rfl, h.1, ?_⟩
  rw [h.2.1]
  norm_num [sampleHw]

/-- Claim C3: a `read` on a transport that is not connected returns `ERROR`,
makes no call on the transport (in particular no telemetry request) and leaves
both wheels, and the whole adapter state, unchanged. -/
theorem read_disconnected {K : Type} [Field K] (m : WheelMath K) (env : Env K) (dir0 : K)
    (hw : DiffDriveDDSM115Hardware K) (h : hw.commsDDSM_.connected = false) :
    (DiffDriveDDSM115Hardware.read m env dir0 hw).1 = return_type.ERROR ∧
    (DiffDriveDDSM115Hardware.read m env dir0 hw).2.commsDDSM_.log = hw.commsDDSM_.log ∧
    (DiffDriveDDSM115Hardware.read m env dir0 hw).2.wheel_l_ = hw.wheel_l_ ∧
    (DiffDriveDDSM115Hardware.read m env dir0 hw).2.wheel_r_ = hw.wheel_r_ ∧
    (DiffDriveDDSM115Hardware.read m env dir0 hw).2 = hw := by
  simp [DiffDriveDDSM115Hardware.read, h]

/-- Witness for C3 on the sample adapter, not connected. -/
theorem read_disconnected_witness :
    (sampleHw false).commsDDSM_.connected = false ∧
    (DiffDriveDDSM115Hardware.read sampleMath sampleEnv 1 (sampleHw false)).1 =
      return_type.ERROR ∧
    (DiffDriveDDSM115Hardware.read sampleMath sampleEnv 1 (sampleHw false)).2 =
      sampleHw false :=
  ⟨rfl, (read_disconnected sampleMath sampleEnv 1 (sampleHw false) rfl).1,
    (read_disconnected sampleMath sampleEnv 1 (sampleHw false) rfl).2.2.2.2⟩

/-- Claim C4: a `write` on a transport that is not connected returns `ERROR`,
makes no call on the transport (no velocity command to either wheel) and
leaves both wheels, and the whole adapter state, unchanged. -/
theorem write_disconnected {K : Type} [Field K]
    (hw : DiffDriveDDSM115Hardware K) (h : hw.commsDDSM_.connected = false) :
    (DiffDriveDDSM115Hardware.write hw).1 = return_type.ERROR ∧
    (DiffDriveDDSM115Hardware.write hw).2.commsDDSM_.log = hw.commsDDSM_.log ∧
    (DiffDriveDDSM115Hardware.write hw).2.wheel_l_ = hw.wheel_l_ ∧
    (DiffDriveDDSM115Hardware.write hw).2.wheel_r_ = hw.wheel_r_ ∧
    (DiffDriveDDSM115Hardware.write hw).2 = hw := by
  simp [DiffDriveDDSM115Hardware.write, h]

/-- Witness for C4 on the sample adapter, not connected. -/
theorem write_disconnected_witness :
    (sampleHw false).commsDDSM_.connected = false ∧
    (DiffDriveDDSM115Hardware.write (sampleHw false)).1 = return_type.ERROR ∧
    (DiffDriveDDSM115Hardware.write (sampleHw false)).2 = sampleHw false :=
  ⟨rfl, (write_disconnected (sampleHw false) rfl).1,
    (write_disconnected (sampleHw false) rfl).2.2.2.2⟩

/-- Claim C5: when the base-class init succeeds and the four numeric
parameters parse, `on_init` returns `SUCCESS` exactly when every declared
joint has the single command interface `velocity` and the two state interfaces
`position`, `velocity` in that order, and returns `ERROR` exactly when some
joint has another shape. -/
theorem on_init_success_iff {K : Type} (info : HardwareInfo) (hw : DiffDriveDDSM115Hardware K)
    (h : ∀ key ∈ numericParams, ∃ v, stoi (info.param key) = Except.ok v) :
    (statusOf (DiffDriveDDSM115Hardware.on_init CallbackReturn.SUCCESS info hw) =
        some CallbackReturn.SUCCESS ↔
      ∀ joint ∈ info.joints,
        joint.command_interfaces.map InterfaceInfo.name = [HW_IF_VELOCITY] ∧
        joint.state_interfaces.map InterfaceInfo.name = [HW_IF_POSITION, HW_IF_VELOCITY]) ∧
    (statusOf (DiffDriveDDSM115Hardware.on_init CallbackReturn.SUCCESS info hw) =
        some CallbackReturn.ERROR ↔
      ¬ ∀ joint ∈ info.joints,
        joint.command_interfaces.map InterfaceInfo.name = [HW_IF_VELOCITY] ∧
        joint.state_interfaces.map InterfaceInfo.name = [HW_IF_POSITION, HW_IF_VELOCITY]) := by
  rw [on_init_parsed info hw h]
  have key := checkJoints_success_iff info.joints
  simp only [jointOk_iff] at key
  rw [← key]
  rcases checkJoints_cases info.joints with hc | hc <;> simp [hc]

/-- Witness for C5, the two scenarios: with `baud_rate="115200"` and
`timeout_ms="100"`, two well-shaped joints give `SUCCESS`; with the state
interfaces of one joint swapped the result is `ERROR`. -/
theorem on_init_success_iff_witness :
    (∀ key ∈ numericParams, ∃ v, stoi (goodInfo.param key) = Except.ok v) ∧
    (∀ key ∈ numericParams, ∃ v, stoi (swappedInfo.param key) = Except.ok v) ∧
    statusOf (DiffDriveDDSM115Hardware.on_init CallbackReturn.SUCCESS goodInfo (sampleHw false)) =
      some CallbackReturn.SUCCESS ∧
    statusOf (DiffDriveDDSM115Hardware.on_init CallbackReturn.SUCCESS swappedInfo
      (sampleHw false)) = some CallbackReturn.ERROR :=
  ⟨sampleParams_parse _, sampleParams_parse _,
    (on_init_success_iff goodInfo (sampleHw false) (sampleParams_parse _)).1.2 (by decide),
    (on_init_success_iff swappedInfo (sampleHw false) (sampleParams_parse _)).2.2 (by decide)⟩

/-- Claim C6 fails on the code: with a successful base-class init and
`baud_rate="fast"`, `on_init` returns no status; the `invalid_argument`
exception of `std::stoi` leaves it. -/
theorem on_init_bad_baud_rate_throws :
    stoi (badBaudInfo.param "baud_rate") = Except.error StoiException.invalid_argument ∧
    DiffDriveDDSM115Hardware.on_init CallbackReturn.SUCCESS badBaudInfo (sampleHw false) =
      Except.error StoiException.invalid_argument ∧
    statusOf (DiffDriveDDSM115Hardware.on_init CallbackReturn.SUCCESS badBaudInfo
      (sampleHw false)) ≠ some CallbackReturn.ERROR := by
  have hp : badBaudInfo.param "baud_rate" = "fast" := rfl
  have hs : stoi "fast" = Except.error StoiException.invalid_argument := rfl
  have h : DiffDriveDDSM115Hardware.on_init CallbackReturn.SUCCESS badBaudInfo (sampleHw false) =
      Except.error StoiException.invalid_argument := by
    simp [DiffDriveDDSM115Hardware.on_init, hp, hs, bind, Except.bind]
  refine ⟨by rw [hp, hs], h, ?_⟩
  rw [h]
  simp [statusOf]

/-- Claim C6 as amended: when one of the numeric parameters does not parse,
`on_init` returns `ERROR` if the base-class init failed, and otherwise returns
no status: an exception raised by `std::stoi` leaves `on_init`. -/
theorem on_init_unparseable {K : Type} (base_on_init : CallbackReturn) (info : HardwareInfo)
    (hw : DiffDriveDDSM115Hardware K)
    (h : ∃ key ∈ numericParams, ∃ e, stoi (info.param key) = Except.error e) :
    (base_on_init ≠ CallbackReturn.SUCCESS →
      DiffDriveDDSM115Hardware.on_init base_on_init info hw =
        Except.ok (CallbackReturn.ERROR, hw)) ∧
    (base_on_init = CallbackReturn.SUCCESS →
      ∃ e, DiffDriveDDSM115Hardware.on_init base_on_init info hw = Except.error e) := by
  constructor
  · intro hb
    simp [DiffDriveDDSM115Hardware.on_init, hb]
  · intro hb
    subst hb
    obtain ⟨key, hkey, e, he⟩ := h
    simp only [DiffDriveDDSM115Hardware.on_init, bne_self_eq_false, Bool.false_eq_true,
      if_false, bind, Except.bind]
    cases hb : stoi (info.param "baud_rate") with
    | error e1 => exact ⟨e1, rfl⟩
    | ok b =>
      cases ht : stoi (info.param "timeout_ms") with
      | error e1 => exact ⟨e1, rfl⟩
      | ok t =>
        cases hl : stoi (info.param "left_wheel_id") with
        | error e1 => exact ⟨e1, rfl⟩
        | ok l =>
          cases hr : stoi (info.param "right_wheel_id") with
          | error e1 => exact ⟨e1, rfl⟩
          | ok r =>
            exfalso
            simp only [numericParams, List.mem_cons, List.mem_singleton, List.mem_nil_iff,
              or_false] at hkey
            rcases hkey with rfl | rfl | rfl | rfl
            · rw [hb] at he; cases he
            · rw [ht] at he; cases he
            · rw [hl] at he; cases he
            · rw [hr] at he; cases he

/-- Witness for the amended C6: `timeout_ms=""` (the key is absent) with a
successful base-class init throws, and with a failed one returns `ERROR`. -/
theorem on_init_unparseable_witness :
    (∃ key ∈ numericParams, ∃ e,
      stoi (HardwareInfo.param ⟨[("baud_rate", "115200")], []⟩ key) = Except.error e) ∧
    (∃ e, DiffDriveDDSM115Hardware.on_init CallbackReturn.SUCCESS
      ⟨[("baud_rate", "115200")], []⟩ (sampleHw false) = Except.error e) ∧
    DiffDriveDDSM115Hardware.on_init CallbackReturn.FAILURE
      ⟨[("baud_rate", "115200")], []⟩ (sampleHw false) =
        Except.ok (CallbackReturn.ERROR, sampleHw false) :=
  have hx : ∃ key ∈ numericParams, ∃ e,
      stoi (HardwareInfo.param ⟨[("baud_rate", "115200")], []⟩ key) = Except.error e :=
    ⟨"timeout_ms", by simp [numericParams], StoiException.invalid_argument, rfl⟩
  ⟨hx,
    (on_init_unparseable CallbackReturn.SUCCESS ⟨[("baud_rate", "115200")], []⟩
      (sampleHw false) hx).2 rfl,
    (on_init_unparseable CallbackReturn.FAILURE ⟨[("baud_rate", "115200")], []⟩
      (sampleHw false) hx).1 (by decide)⟩

/-- Claim C7: `on_activate` returns `ERROR` exactly when the transport is not
connected, and then makes no call on the transport; when it is connected it
returns `SUCCESS` and appends exactly two calls: mode-set of the left wheel id
and then of the right wheel id, both to `VELOCITY_LOOP`. -/
theorem on_activate_spec {K : Type} (hw : DiffDriveDDSM115Hardware K) :
    ((DiffDriveDDSM115Hardware.on_activate hw).1 = CallbackReturn.ERROR ↔
      hw.commsDDSM_.connected = false) ∧
    (hw.commsDDSM_.connected = false → (DiffDriveDDSM115Hardware.on_activate hw).2 = hw) ∧
    (hw.commsDDSM_.connected = true →
      (DiffDriveDDSM115Hardware.on_activate hw).1 = CallbackReturn.SUCCESS ∧
      (DiffDriveDDSM115Hardware.on_activate hw).2.commsDDSM_.log = hw.commsDDSM_.log ++
        [Call.set_ddsm115_mode hw.wheel_l_.id DDSM115Mode.VELOCITY_LOOP,
         Call.set_ddsm115_mode hw.wheel_r_.id DDSM115Mode.VELOCITY_LOOP]) := by
  cases h : hw.commsDDSM_.connected <;>
    simp [DiffDriveDDSM115Hardware.on_activate, h, Comms.set_ddsm115_mode]

/-- Witness for C7: the sample adapter never configured (log unchanged,
`ERROR`) and connected (two mode-set calls, ids 1 then 2). -/
theorem on_activate_spec_witness :
    (sampleHw false).commsDDSM_.connected = false ∧
    (sampleHw true).commsDDSM_.connected = true ∧
    (DiffDriveDDSM115Hardware.on_activate (sampleHw false)).1 = CallbackReturn.ERROR ∧
    (DiffDriveDDSM115Hardware.on_activate (sampleHw false)).2 = sampleHw false ∧
    (DiffDriveDDSM115Hardware.on_activate (sampleHw true)).1 = CallbackReturn.SUCCESS ∧
    (DiffDriveDDSM115Hardware.on_activate (sampleHw true)).2.commsDDSM_.log =
      (sampleHw true).commsDDSM_.log ++
        [Call.set_ddsm115_mode (sampleHw true).wheel_l_.id DDSM115Mode.VELOCITY_LOOP,
         Call.set_ddsm115_mode (sampleHw true).wheel_r_.id DDSM115Mode.VELOCITY_LOOP] :=
  ⟨rfl, rfl, (on_activate_spec (sampleHw false)).1.2 rfl,
    (on_activate_spec (sampleHw false)).2.1 rfl,
    ((on_activate_spec (sampleHw true)).2.2 rfl).1,
    ((on_activate_spec (sampleHw true)).2.2 rfl).2⟩

/-- Claim C8 fails on the code: where no device path opens, `on_configure`
leaves the transport not connected and still returns `SUCCESS`. -/
theorem on_configure_unconnected_success :
    (DiffDriveDDSM115Hardware.on_configure failEnv (sampleHw false)).2.commsDDSM_.connected =
      false ∧
    (DiffDriveDDSM115Hardware.on_configure failEnv (sampleHw false)).1 =
      CallbackReturn.SUCCESS := by
  constructor <;> rfl

/-- Claim C8 as amended: `on_configure` returns `SUCCESS` for every
configuration and every outcome of the connect call; afterwards the transport
is connected exactly when the connect call succeeded. -/
theorem on_configure_always_success {K : Type} (env : Env K)
    (hw : DiffDriveDDSM115Hardware K) :
    (DiffDriveDDSM115Hardware.on_configure env hw).1 = CallbackReturn.SUCCESS ∧
    (DiffDriveDDSM115Hardware.on_configure env hw).2.commsDDSM_.connected =
      env.connectOk hw.cfg_.device hw.cfg_.timeout_ms := by
  simp [DiffDriveDDSM115Hardware.on_configure, Comms.connect]

/-- Claim C9: calling `on_configure` twice in a row gives the same status and
the same final connected flag as calling it once; the second call appends
`disconnect` then `connect` when the first left the transport connected and
`connect` alone otherwise, and replaying the calls of both from the starting
flag, no `connect` is made on a connected transport. -/
theorem on_configure_twice {K : Type} (env : Env K) (hw : DiffDriveDDSM115Hardware K) :
    (DiffDriveDDSM115Hardware.on_configure env
      (DiffDriveDDSM115Hardware.on_configure env hw).2).1 =
      (DiffDriveDDSM115Hardware.on_configure env hw).1 ∧
    (DiffDriveDDSM115Hardware.on_configure env
      (DiffDriveDDSM115Hardware.on_configure env hw).2).2.commsDDSM_.connected =
      (DiffDriveDDSM115Hardware.on_configure env hw).2.commsDDSM_.connected ∧
    (DiffDriveDDSM115Hardware.on_configure env
      (DiffDriveDDSM115Hardware.on_configure env hw).2).2.commsDDSM_.log =
      (DiffDriveDDSM115Hardware.on_configure env hw).2.commsDDSM_.log ++
        (if (DiffDriveDDSM115Hardware.on_configure env hw).2.commsDDSM_.connected
          then [Call.disconnect, Call.connect hw.cfg_.device hw.cfg_.timeout_ms]
          else [Call.connect hw.cfg_.device hw.cfg_.timeout_ms]) ∧
    connectsWhenClosed env hw.commsDDSM_.connected
      ((DiffDriveDDSM115Hardware.on_configure env
        (DiffDriveDDSM115Hardware.on_configure env hw).2).2.commsDDSM_.log.drop
        hw.commsDDSM_.log.length) = true := by
  cases h : hw.commsDDSM_.connected <;>
    cases h2 : env.connectOk hw.cfg_.device hw.cfg_.timeout_ms <;>
    simp [DiffDriveDDSM115Hardware.on_configure, Comms.connect, Comms.disconnect, h, h2,
      connectsWhenClosed]

/-- Claim C10: a `read` on a connected transport returns `OK`, appends exactly
two telemetry requests (left wheel id, then right wheel id), stores in each
wheel's velocity `rpm_to_rad_per_sec` of the RPM value answered to that
wheel's own request, where `rpm_to_rad_per_sec r = r * 2 * pi / 60`, and
leaves both pending commands unchanged. -/
theorem read_velocity {K : Type} [Field K] (m : WheelMath K) (env : Env K) (dir0 : K)
    (hw : DiffDriveDDSM115Hardware K) (h : hw.commsDDSM_.connected = true) :
    (DiffDriveDDSM115Hardware.read m env dir0 hw).1 = return_type.OK ∧
    (DiffDriveDDSM115Hardware.read m env dir0 hw).2.commsDDSM_.log = hw.commsDDSM_.log ++
      [Call.get_ddsm115_mode hw.wheel_l_.id, Call.get_ddsm115_mode hw.wheel_r_.id] ∧
    (DiffDriveDDSM115Hardware.read m env dir0 hw).2.wheel_l_.vel =
      Wheel.rpm_to_rad_per_sec m (env.telemetry hw.commsDDSM_.log hw.wheel_l_.id).velocity ∧
    (DiffDriveDDSM115Hardware.read m env dir0 hw).2.wheel_r_.vel =
      Wheel.rpm_to_rad_per_sec m
        (env.telemetry (hw.commsDDSM_.log ++ [Call.get_ddsm115_mode hw.wheel_l_.id])
          hw.wheel_r_.id).velocity ∧
    (∀ r : K, Wheel.rpm_to_rad_per_sec m r = r * 2 * m.pi / 60) ∧
    (DiffDriveDDSM115Hardware.read m env dir0 hw).2.wheel_l_.cmd = hw.wheel_l_.cmd ∧
    (DiffDriveDDSM115Hardware.read m env dir0 hw).2.wheel_r_.cmd = hw.wheel_r_.cmd := by
  simp [DiffDriveDDSM115Hardware.read, h, Comms.get_ddsm115_mode, Wheel.rpm_to_rad_per_sec]

/-- Witness for C10: the left wheel answers 60 RPM and the right wheel -30
RPM; the stored velocities are `60 * 2 * pi / 60` and `-30 * 2 * pi / 60`. -/
theorem read_velocity_witness :
    (sampleHw true).commsDDSM_.connected = true ∧
    (DiffDriveDDSM115Hardware.read sampleMath sampleEnv 1 (sampleHw true)).1 = return_type.OK ∧
    (DiffDriveDDSM115Hardware.read sampleMath sampleEnv 1 (sampleHw true)).2.commsDDSM_.log =
      [Call.get_ddsm115_mode 1, Call.get_ddsm115_mode 2] ∧
    (DiffDriveDDSM115Hardware.read sampleMath sampleEnv 1 (sampleHw true)).2.wheel_l_.vel =
      60 * 2 * sampleMath.pi / 60 ∧
    (DiffDriveDDSM115Hardware.read sampleMath sampleEnv 1 (sampleHw true)).2.wheel_r_.vel =
      -30 * 2 * sampleMath.pi / 60 := by
  have h := read_velocity sampleMath sampleEnv 1 (sampleHw true) rfl
  refine ⟨rfl, h.1, ?_, ?_, ?_⟩
  · rw [h.2.1]; simp [sampleHw]
  · rw [h.2.2.1]; simp [sampleHw, sampleEnv, Wheel.rpm_to_rad_per_sec]
  · rw [h.2.2.2.1]; simp [sampleHw, sampleEnv, Wheel.rpm_to_rad_per_sec]

end diffdrive_ddsm115
